import Mathlib

/-
Verification of the manager_agent service (src/main.py): a FastAPI endpoint
running an agent loop against a model provider, with a psycopg2 connection
pool and a synchronous SQL query executor.

The embedding models:
  - JSON values and the Python json.dumps serialization (default separators,
    ensure_ascii escaping, default=str for non-native values);
  - execute_sql_query_sync over an abstract database driver oracle;
  - the psycopg2 ThreadedConnectionPool bookkeeping (counting model);
  - the run_agent loop over a model-provider oracle and a json.loads oracle,
    with fuel making the unbounded while-loop total.
-/

-- ===== Section 1: JSON values and the Python json.dumps model =====

/-- JSON values as produced and consumed by the Python code. Numbers are
modelled as integers; no claim depends on float semantics. -/
inductive Json where
  | null : Json
  | bool (b : Bool) : Json
  | num (n : Int) : Json
  | str (s : String) : Json
  | arr (xs : List Json) : Json
  | obj (kvs : List (String × Json)) : Json

/-- Lowercase hexadecimal digit, as Python uses in unicode escapes. -/
def hexDig (n : Nat) : Char := Nat.digitChar (n % 16)

/-- Four-digit lowercase hexadecimal rendering, as in a Python unicode escape. -/
def hex4 (n : Nat) : String :=
  String.mk [hexDig (n / 4096), hexDig (n / 256), hexDig (n / 16), hexDig n]

/-- Escape of one character exactly as json.dumps (ensure_ascii=True) does:
printable ASCII other than quote and backslash is literal, the short escapes
for backslash, quote, newline, tab, carriage return, backspace and form feed,
and unicode escapes (with surrogate pairs) for everything else. -/
def escChar (c : Char) : String :=
  if c = '"' then "\\\""
  else if c = '\\' then "\\\\"
  else if c = '\n' then "\\n"
  else if c = '\t' then "\\t"
  else if c = '\r' then "\\r"
  else if c.toNat = 8 then "\\b"
  else if c.toNat = 12 then "\\f"
  else if c.toNat < 32 then "\\u" ++ hex4 c.toNat
  else if c.toNat < 127 then String.mk [c]
  else if c.toNat < 65536 then "\\u" ++ hex4 c.toNat
  else "\\u" ++ hex4 (55296 + (c.toNat - 65536) / 1024)
       ++ "\\u" ++ hex4 (56320 + (c.toNat - 65536) % 1024)

/-- Python string literal rendering inside json.dumps output. -/
def pyQuote (s : String) : String :=
  "\"" ++ String.join (s.data.map escChar) ++ "\""

mutual

/-- Model of Python json.dumps with its default separators
(comma-space between items, colon-space after keys). -/
def dumps : Json → String
  | Json.null => "null"
  | Json.bool true => "true"
  | Json.bool false => "false"
  | Json.num n => toString n
  | Json.str s => pyQuote s
  | Json.arr xs => "[" ++ dumpsArr xs ++ "]"
  | Json.obj kvs => "\x7b" ++ dumpsObj kvs ++ "\x7d"

/-- Comma-separated rendering of a JSON array body. -/
def dumpsArr : List Json → String
  | [] => ""
  | [j] => dumps j
  | j :: js => dumps j ++ ", " ++ dumpsArr js

/-- Comma-separated rendering of a JSON object body. -/
def dumpsObj : List (String × Json) → String
  | [] => ""
  | [(k, v)] => pyQuote k ++ ": " ++ dumps v
  | (k, v) :: ps => pyQuote k ++ ": " ++ dumps v ++ ", " ++ dumpsObj ps

end

/-- Python dict lookup dict.get(k): first matching key of the association
list (json.loads produces dicts, whose keys are unique). -/
def pyGet : List (String × Json) → String → Option Json
  | [], _ => none
  | (k, v) :: rest, key => if k = key then some v else pyGet rest key

-- ===== Section 2: the Query Executor (execute_sql_query_sync) =====

/-- One database cell as fetched by the driver: either a JSON-native Python
value, or a non-native value (date, Decimal, ...) carrying the string that
str() produces for it, which json.dumps(default=str) substitutes. -/
inductive SqlCell where
  | native (j : Json) : SqlCell
  | nonNative (s : String) : SqlCell

/-- The value json.dumps(default=str) serializes for one cell. -/
def cellJson : SqlCell → Json
  | SqlCell.native j => j
  | SqlCell.nonNative s => Json.str s

/-- Behavior of the database driver for one cur.execute call: it raises with
some message, or completes with no result set (cur.description is None), or
completes with a result set of column names and fetched rows in database
order. -/
inductive DriverOutcome where
  | raises (msg : String) : DriverOutcome
  | noResultSet : DriverOutcome
  | resultSet (cols : List String) (rows : List (List SqlCell)) : DriverOutcome

/-- Python dict insertion d[k] = v: overwrite in place when the key exists,
append otherwise (insertion order preserved, as in Python dicts). -/
def assocUpdate (d : List (String × Json)) (k : String) (v : Json) :
    List (String × Json) :=
  if d.any (fun p => p.1 = k) then
    d.map (fun p => if p.1 = k then (k, v) else p)
  else d ++ [(k, v)]

/-- One RealDictRow: psycopg2 RealDictCursor builds a dict mapping each
description column name to the corresponding positional value; later
duplicate column names overwrite earlier ones, as in any Python dict. -/
def rowDict (cols : List String) (cells : List SqlCell) :
    List (String × Json) :=
  (cols.zip cells).foldl (fun d p => assocUpdate d p.1 (cellJson p.2)) []

/-- The fetchall result serialized by json.dumps(default=str): the list of
RealDictRow dicts in the order the database returned the rows. -/
def serializeRows (cols : List String) (rows : List (List SqlCell)) : Json :=
  Json.arr (rows.map (fun r => Json.obj (rowDict cols r)))

/-- Outcome of one execute_sql_query_sync call: the returned JSON string,
whether a connection was acquired from the pool, and whether one was
released back to it. -/
structure ExecResult where
  output : String
  acquired : Bool
  released : Bool

/-- Shallow embedding of execute_sql_query_sync (src/main.py lines 68-85).
poolInit is whether DatabasePool.initialize ran (get_conn raises with
message "Database pool not initialized" otherwise, with conn still None so
the finally block does not release). The driver oracle gives the outcome of
cur.execute for the passed query value; the query is None when
args.get("query") produced None (no such key, or JSON null). The except
block turns any exception into json.dumps of a status/error object; the
finally block releases exactly when conn was bound. -/
def execute_sql_query_sync (poolInit : Bool)
    (driver : Option Json → DriverOutcome) (query : Option Json) :
    ExecResult :=
  if poolInit then
    match driver query with
    | DriverOutcome.raises msg =>
        ExecResult.mk
          (dumps (Json.obj [("status", Json.str "error"),
                            ("error", Json.str msg)]))
          true true
    | DriverOutcome.noResultSet =>
        ExecResult.mk
          (dumps (Json.obj [("status", Json.str "success"),
                            ("message", Json.str "Query executed successfully.")]))
          true true
    | DriverOutcome.resultSet cols rows =>
        ExecResult.mk (dumps (serializeRows cols rows)) true true
  else
    ExecResult.mk
      (dumps (Json.obj [("status", Json.str "error"),
                        ("error", Json.str "Database pool not initialized")]))
      false false

-- ===== Section 3: the psycopg2 ThreadedConnectionPool counting model =====

/-- Counting model of psycopg2.pool.ThreadedConnectionPool (the third-party
pool class instantiated by DatabasePool.initialize): idle is the length of
the internal free list (which the constructor fills with minconn physical
connections) and used the number of checked-out connections. -/
structure PgPool where
  minconn : Nat
  maxconn : Nat
  idle : Nat
  used : Nat
deriving DecidableEq

/-- The pool as the constructor leaves it: minconn physical connections in
the free list, none checked out. -/
def pgPoolMake (minc maxc : Nat) : PgPool := PgPool.mk minc maxc minc 0

/-- Result of getconn: a connection with the updated pool, or the PoolError
("connection pool exhausted") that psycopg2 raises when all maxconn
connections are already checked out. It never blocks. -/
inductive GetConnResult where
  | conn (p : PgPool) : GetConnResult
  | poolExhausted : GetConnResult
deriving DecidableEq

/-- psycopg2 AbstractConnectionPool._getconn: pop a free connection when the
free list is nonempty; otherwise raise PoolError when used equals maxconn;
otherwise open a new physical connection. -/
def PgPool.getconn (p : PgPool) : GetConnResult :=
  if 0 < p.idle then
    GetConnResult.conn (PgPool.mk p.minconn p.maxconn (p.idle - 1) (p.used + 1))
  else if p.used = p.maxconn then GetConnResult.poolExhausted
  else GetConnResult.conn (PgPool.mk p.minconn p.maxconn p.idle (p.used + 1))

/-- psycopg2 AbstractConnectionPool._putconn on a checked-out connection:
keep it in the free list while that list is shorter than minconn, close it
otherwise; either way it is no longer checked out. -/
def PgPool.putconn (p : PgPool) : PgPool :=
  if p.idle < p.minconn then
    PgPool.mk p.minconn p.maxconn (p.idle + 1) (p.used - 1)
  else PgPool.mk p.minconn p.maxconn p.idle (p.used - 1)

/-- The pool DatabasePool.initialize creates (src/main.py lines 38-49):
ThreadedConnectionPool with minconn=1 and maxconn=20. -/
def databasePoolInit : PgPool := pgPoolMake 1 20

/-- Pool states reachable from the initialized pool by successful getconn
calls and by putconn calls on a checked-out connection. -/
inductive PoolReachable : PgPool → Prop where
  | init : PoolReachable databasePoolInit
  | get (p q : PgPool) : PoolReachable p → p.getconn = GetConnResult.conn q →
      PoolReachable q
  | put (p : PgPool) : PoolReachable p → 0 < p.used → PoolReachable p.putconn

/-- n successive getconn calls, None when the pool is exhausted on the way. -/
def acquireN : Nat → PgPool → Option PgPool
  | 0, p => some p
  | Nat.succ n, p =>
    match p.getconn with
    | GetConnResult.conn q => acquireN n q
    | GetConnResult.poolExhausted => none

-- ===== Section 4: the Agent Loop (run_agent) =====

/-- One item of response.output from the model provider, as the code
distinguishes them by the type field: a message (its content, kept
abstract), a function call (call_id, function.name, function.arguments as
the raw string the model produced), or anything else (reasoning,
web_search_call, ...), which the code ignores. -/
inductive OutputItem where
  | message (content : String) : OutputItem
  | functionCall (call_id : String) (name : String) (arguments : String) :
      OutputItem
  | other (ty : String) : OutputItem

/-- One model response: response.output plus response.output_text. -/
structure ModelResponse where
  output : List OutputItem
  output_text : String

/-- One turn of conversation_input as the code builds it. -/
inductive Turn where
  | user (content : String) : Turn
  | assistantMsg (content : String) : Turn
  | functionCallTurn (call_id : String) (name : String) (arguments : String) :
      Turn
  | functionCallOutput (call_id : String) (output : String) : Turn

/-- The request body of POST /agent (src/main.py lines 152-157). -/
structure AgentRequest where
  query : String
  session_id : Option String

/-- A function_call item as the agent loop consumes it. -/
structure FunctionCall where
  call_id : String
  name : String
  arguments : String

/-- The filter [i for i in response.output if i.type == "function_call"]. -/
def functionCallsOf : List OutputItem → List FunctionCall
  | [] => []
  | OutputItem.functionCall cid name args :: rest =>
      FunctionCall.mk cid name args :: functionCallsOf rest
  | _ :: rest => functionCallsOf rest

/-- The per-item history update: message items become assistant turns,
function_call items become function-call turns, everything else is skipped
(the if/elif chain at src/main.py lines 182-193). -/
def turnOfItem : OutputItem → Option Turn
  | OutputItem.message c => some (Turn.assistantMsg c)
  | OutputItem.functionCall cid name args =>
      some (Turn.functionCallTurn cid name args)
  | OutputItem.other _ => none

/-- An uncaught exception escaping the agent loop: json.loads failing on the
arguments of a run_database_query call, or args.get called on a decoded
value that is not a dict (AttributeError). -/
inductive AgentFailure where
  | jsonDecodeError (msg : String) : AgentFailure
  | attributeError (v : Json) : AgentFailure

/-- Record of one invocation of the Query Executor: the call_id and declared
name of the function call that triggered it, the Python value passed as the
query, and the string the executor returned. -/
structure ExecRecord where
  call_id : String
  name : String
  sql : Option Json
  result : String

/-- args.get("query") at the Python level: JSON null and an absent key both
give Python None. -/
def pyArgsQuery (kvs : List (String × Json)) : Option Json :=
  match pyGet kvs "query" with
  | some Json.null => none
  | r => r

/-- Result of the tool-execution for-loop of one iteration: either it
finishes, or an uncaught exception aborts it; in both cases the
conversation and executor records accumulated so far are kept. -/
inductive ToolsResult where
  | ok (conv : List Turn) (executed : List ExecRecord) : ToolsResult
  | failed (e : AgentFailure) (conv : List Turn)
      (executed : List ExecRecord) : ToolsResult

/-- The tool-execution for-loop (src/main.py lines 196-210): for each
function call, only those named run_database_query are handled; their
arguments go through json.loads (an uncaught JSONDecodeError on invalid
JSON), then args.get("query") (an uncaught AttributeError when the decoded
value is not a dict), then execute_sql_query_sync, whose output is appended
as a function_call_output turn. Calls with any other name are skipped. -/
def execTools (poolInit : Bool) (driver : Option Json → DriverOutcome)
    (loads : String → Except String Json) :
    List FunctionCall → List Turn → List ExecRecord → ToolsResult
  | [], conv, ex => ToolsResult.ok conv ex
  | call :: rest, conv, ex =>
    if call.name = "run_database_query" then
      match loads call.arguments with
      | Except.error m =>
          ToolsResult.failed (AgentFailure.jsonDecodeError m) conv ex
      | Except.ok (Json.obj kvs) =>
          let sql := pyArgsQuery kvs
          let r := execute_sql_query_sync poolInit driver sql
          execTools poolInit driver loads rest
            (conv ++ [Turn.functionCallOutput call.call_id r.output])
            (ex ++ [ExecRecord.mk call.call_id call.name sql r.output])
      | Except.ok v =>
          ToolsResult.failed (AgentFailure.attributeError v) conv ex
    else execTools poolInit driver loads rest conv ex

/-- How one run of the loop ended: a returned response dict, or an uncaught
exception propagating out of the endpoint. -/
inductive LoopResult where
  | ok (response : Json) : LoopResult
  | uncaught (e : AgentFailure) : LoopResult

/-- A run of the agent loop: its result (None when the fuel ran out with the
loop still going), the final conversation, every Query Executor invocation
in order, and how many model calls were made. -/
structure AgentOutcome where
  result : Option LoopResult
  conv : List Turn
  executed : List ExecRecord
  modelCalls : Nat

/-- The while True loop of run_agent (src/main.py lines 167-210), with fuel.
Each iteration calls the model on the current conversation, filters the
function calls, returns the response dict when there are none, otherwise
appends the assistant turns and runs the tool loop, then iterates. -/
def runAgentLoop (model : List Turn → ModelResponse)
    (loads : String → Except String Json) (poolInit : Bool)
    (driver : Option Json → DriverOutcome) :
    Nat → List Turn → List ExecRecord → Nat → AgentOutcome
  | 0, conv, ex, calls => AgentOutcome.mk none conv ex calls
  | Nat.succ fuel, conv, ex, calls =>
    let resp := model conv
    let fcs := functionCallsOf resp.output
    if fcs.isEmpty then
      AgentOutcome.mk
        (some (LoopResult.ok
          (Json.obj [("response", Json.str resp.output_text)])))
        conv ex (calls + 1)
    else
      match execTools poolInit driver loads fcs
          (conv ++ resp.output.filterMap turnOfItem) ex with
      | ToolsResult.failed e conv2 ex2 =>
          AgentOutcome.mk (some (LoopResult.uncaught e)) conv2 ex2 (calls + 1)
      | ToolsResult.ok conv2 ex2 =>
          runAgentLoop model loads poolInit driver fuel conv2 ex2 (calls + 1)

/-- The POST /agent endpoint (src/main.py lines 159-210): the conversation
is seeded with exactly one user turn holding request.query, and the loop
runs. Note that request.session_id appears nowhere. -/
def run_agent (request : AgentRequest) (model : List Turn → ModelResponse)
    (loads : String → Except String Json) (poolInit : Bool)
    (driver : Option Json → DriverOutcome) (fuel : Nat) : AgentOutcome :=
  runAgentLoop model loads poolInit driver fuel [Turn.user request.query] [] 0

-- ===== Section 5: helper lemmas =====

/-- Inserting a key absent from a Python dict appends it. -/
theorem assocUpdate_fresh (d : List (String × Json)) (k : String) (v : Json)
    (h : ∀ q ∈ d, q.1 ≠ k) : assocUpdate d k v = d ++ [(k, v)] := by
  unfold assocUpdate
  have hany : d.any (fun p => decide (p.1 = k)) = false := by
    rw [List.any_eq_false]
    intro p hp
    simpa using h p hp
  simp [hany]

/-- Building a RealDictRow over pairwise distinct keys never overwrites:
the fold is plain accumulation. -/
theorem rowDict_fold (cols : List String) (cells : List SqlCell)
    (acc : List (String × Json)) (hnd : cols.Nodup)
    (hfresh : ∀ q ∈ acc, q.1 ∉ cols) :
    (cols.zip cells).foldl (fun d p => assocUpdate d p.1 (cellJson p.2)) acc =
      acc ++ (cols.zip cells).map (fun p => (p.1, cellJson p.2)) := by
  induction cols generalizing cells acc with
  | nil => simp
  | cons c cols ih =>
    cases cells with
    | nil => simp
    | cons cell cells =>
      have hstep : assocUpdate acc c (cellJson cell) = acc ++ [(c, cellJson cell)] := by
        refine assocUpdate_fresh acc c (cellJson cell) ?_
        intro q hq
        intro hqc
        exact hfresh q hq (hqc ▸ List.mem_cons_self c cols)
      have hnd2 : cols.Nodup := (List.nodup_cons.mp hnd).2
      have hc : c ∉ cols := (List.nodup_cons.mp hnd).1
      have hfresh2 : ∀ q ∈ acc ++ [(c, cellJson cell)], q.1 ∉ cols := by
        intro q hq
        rcases List.mem_append.mp hq with hq1 | hq2
        · intro hmem
          exact hfresh q hq1 (List.mem_cons_of_mem c hmem)
        · rcases List.mem_singleton.mp hq2 with rfl
          exact hc
      calc ((c :: cols).zip (cell :: cells)).foldl
              (fun d p => assocUpdate d p.1 (cellJson p.2)) acc
          = (cols.zip cells).foldl (fun d p => assocUpdate d p.1 (cellJson p.2))
              (acc ++ [(c, cellJson cell)]) := by
            simp [List.zip_cons_cons, hstep]
        _ = acc ++ [(c, cellJson cell)] ++
              (cols.zip cells).map (fun p => (p.1, cellJson p.2)) :=
            ih cells (acc ++ [(c, cellJson cell)]) hnd2 hfresh2
        _ = acc ++ (((c :: cols).zip (cell :: cells)).map
              (fun p => (p.1, cellJson p.2))) := by
            simp [List.zip_cons_cons]

/-- Pushing the cell conversion through the zip. -/
theorem zip_map_cellJson (cols : List String) (cells : List SqlCell) :
    (cols.zip cells).map (fun p => (p.1, cellJson p.2)) =
      cols.zip (cells.map cellJson) := by
  induction cols generalizing cells with
  | nil => simp
  | cons c cols ih =>
    cases cells with
    | nil => simp
    | cons cell cells => simp [List.zip_cons_cons, ih]

/-- Under pairwise distinct column names, the RealDictRow is exactly the
column names zipped with the converted values. -/
theorem rowDict_eq_zip (cols : List String) (cells : List SqlCell)
    (hnd : cols.Nodup) :
    rowDict cols cells = cols.zip (cells.map cellJson) := by
  unfold rowDict
  rw [rowDict_fold cols cells [] hnd (by intro q hq; cases hq)]
  rw [List.nil_append]
  exact zip_map_cellJson cols cells

/-- The call_ids of the function_call_output turns of a conversation, in
order. -/
def fcOutputIds : List Turn → List String
  | [] => []
  | Turn.functionCallOutput cid _ :: rest => cid :: fcOutputIds rest
  | _ :: rest => fcOutputIds rest

/-- Whether every executor record came from a call named run_database_query. -/
def allRdq (ex : List ExecRecord) : Bool :=
  ex.all (fun r => r.name == "run_database_query")

/-- Conversation component of a tool-loop result. -/
def toolsConv : ToolsResult → List Turn
  | ToolsResult.ok c _ => c
  | ToolsResult.failed _ c _ => c

/-- Executor-record component of a tool-loop result. -/
def toolsEx : ToolsResult → List ExecRecord
  | ToolsResult.ok _ e => e
  | ToolsResult.failed _ _ e => e

theorem fcOutputIds_append (a b : List Turn) :
    fcOutputIds (a ++ b) = fcOutputIds a ++ fcOutputIds b := by
  induction a with
  | nil => simp [fcOutputIds]
  | cons t rest ih =>
    cases t <;> simp [fcOutputIds, ih]

/-- The history update from response.output never appends a
function_call_output turn. -/
theorem fcOutputIds_filterMap (items : List OutputItem) :
    fcOutputIds (items.filterMap turnOfItem) = [] := by
  induction items with
  | nil => simp [fcOutputIds]
  | cons i rest ih =>
    cases i <;> simp [turnOfItem, fcOutputIds, ih]

/-- The tool loop preserves the correspondence between appended
function_call_output turns and executor invocations, and only executes
calls named run_database_query. -/
theorem execTools_inv (poolInit : Bool) (driver : Option Json → DriverOutcome)
    (loads : String → Except String Json) (calls : List FunctionCall)
    (conv : List Turn) (ex : List ExecRecord)
    (hids : fcOutputIds conv = ex.map ExecRecord.call_id)
    (hrdq : allRdq ex = true) :
    fcOutputIds (toolsConv (execTools poolInit driver loads calls conv ex)) =
      (toolsEx (execTools poolInit driver loads calls conv ex)).map
        ExecRecord.call_id ∧
    allRdq (toolsEx (execTools poolInit driver loads calls conv ex)) = true := by
  induction calls generalizing conv ex with
  | nil => exact ⟨hids, hrdq⟩
  | cons call rest ih =>
    by_cases hname : call.name = "run_database_query"
    · rw [execTools, if_pos hname]
      cases hload : loads call.arguments with
      | error m => exact ⟨hids, hrdq⟩
      | ok v =>
        cases v with
        | obj kvs =>
          refine ih _ _ ?_ ?_
          · rw [fcOutputIds_append, hids]
            simp [fcOutputIds]
          · unfold allRdq at hrdq ⊢
            rw [List.all_append, hrdq]
            simp [hname]
        | null => exact ⟨hids, hrdq⟩
        | bool b => exact ⟨hids, hrdq⟩
        | num n => exact ⟨hids, hrdq⟩
        | str s => exact ⟨hids, hrdq⟩
        | arr xs => exact ⟨hids, hrdq⟩
    · rw [execTools, if_neg hname]
      exact ih conv ex hids hrdq

/-- The loop preserves the same correspondence across iterations. -/
theorem runAgentLoop_inv (model : List Turn → ModelResponse)
    (loads : String → Except String Json) (poolInit : Bool)
    (driver : Option Json → DriverOutcome) (fuel : Nat) (conv : List Turn)
    (ex : List ExecRecord) (calls : Nat)
    (hids : fcOutputIds conv = ex.map ExecRecord.call_id)
    (hrdq : allRdq ex = true) :
    fcOutputIds (runAgentLoop model loads poolInit driver fuel conv ex calls).conv =
      (runAgentLoop model loads poolInit driver fuel conv ex calls).executed.map
        ExecRecord.call_id ∧
    allRdq (runAgentLoop model loads poolInit driver fuel conv ex calls).executed
      = true := by
  induction fuel generalizing conv ex calls with
  | zero => exact ⟨hids, hrdq⟩
  | succ fuel ih =>
    rw [runAgentLoop]
    by_cases hfc : (functionCallsOf (model conv).output).isEmpty
    · simp only [hfc, if_true]
      exact ⟨hids, hrdq⟩
    · simp only [hfc, if_false]
      have hids2 : fcOutputIds (conv ++ (model conv).output.filterMap turnOfItem)
          = ex.map ExecRecord.call_id := by
        rw [fcOutputIds_append, fcOutputIds_filterMap, hids, List.append_nil]
      have hinv := execTools_inv poolInit driver loads
        (functionCallsOf (model conv).output)
        (conv ++ (model conv).output.filterMap turnOfItem) ex hids2 hrdq
      cases hres : execTools poolInit driver loads
          (functionCallsOf (model conv).output)
          (conv ++ (model conv).output.filterMap turnOfItem) ex with
      | ok conv2 ex2 =>
        rw [hres] at hinv
        exact ih conv2 ex2 (calls + 1) hinv.1 hinv.2
      | failed e conv2 ex2 =>
        rw [hres] at hinv
        exact hinv

/-- Whether a loop outcome is a normally returned response dict. -/
def isOkResult : Option LoopResult → Bool
  | some (LoopResult.ok _) => true
  | _ => false

/-- Whether json.loads succeeded with a dict. -/
def isObjOk : Except String Json → Bool
  | Except.ok (Json.obj _) => true
  | _ => false

/-- Whether every run_database_query call in a list carries arguments that
json.loads accepts as a dict, so that the tool loop raises nothing. -/
def decodableCalls (loads : String → Except String Json)
    (fcs : List FunctionCall) : Bool :=
  fcs.all (fun fc => !(fc.name == "run_database_query")
    || isObjOk (loads fc.arguments))

/-- When every run_database_query call decodes to a dict, the tool loop
finishes without an uncaught exception. -/
theorem execTools_ok (poolInit : Bool) (driver : Option Json → DriverOutcome)
    (loads : String → Except String Json) (calls : List FunctionCall)
    (conv : List Turn) (ex : List ExecRecord)
    (h : decodableCalls loads calls = true) :
    ∃ conv2 ex2, execTools poolInit driver loads calls conv ex =
      ToolsResult.ok conv2 ex2 := by
  induction calls generalizing conv ex with
  | nil => exact ⟨conv, ex, rfl⟩
  | cons call rest ih =>
    unfold decodableCalls at h
    rw [List.all_cons] at h
    have h1 := (Bool.and_eq_true _ _).mp h
    by_cases hname : call.name = "run_database_query"
    · rw [execTools, if_pos hname]
      have hobj : isObjOk (loads call.arguments) = true := by
        have := h1.1
        rw [hname] at this
        simpa using this
      cases hload : loads call.arguments with
      | error m => rw [hload] at hobj; simp [isObjOk] at hobj
      | ok v =>
        cases v with
        | obj kvs => exact ih _ _ h1.2
        | null => rw [hload] at hobj; simp [isObjOk] at hobj
        | bool b => rw [hload] at hobj; simp [isObjOk] at hobj
        | num n => rw [hload] at hobj; simp [isObjOk] at hobj
        | str s => rw [hload] at hobj; simp [isObjOk] at hobj
        | arr xs => rw [hload] at hobj; simp [isObjOk] at hobj
    · rw [execTools, if_neg hname]
      exact ih conv ex h1.2

/-- Unfolding of one loop iteration whose model response has no function
calls: the response dict is returned at once. -/
theorem runAgentLoop_succ_noFc (model : List Turn → ModelResponse)
    (loads : String → Except String Json) (poolInit : Bool)
    (driver : Option Json → DriverOutcome) (fuel : Nat) (conv : List Turn)
    (ex : List ExecRecord) (calls : Nat)
    (h : (functionCallsOf (model conv).output).isEmpty = true) :
    runAgentLoop model loads poolInit driver (fuel + 1) conv ex calls =
      AgentOutcome.mk
        (some (LoopResult.ok
          (Json.obj [("response", Json.str (model conv).output_text)])))
        conv ex (calls + 1) := by
  rw [runAgentLoop]
  simp [h]

/-- Unfolding of one loop iteration whose model response does contain
function calls: history update, tool loop, then iterate or abort. -/
theorem runAgentLoop_succ_fc (model : List Turn → ModelResponse)
    (loads : String → Except String Json) (poolInit : Bool)
    (driver : Option Json → DriverOutcome) (fuel : Nat) (conv : List Turn)
    (ex : List ExecRecord) (calls : Nat)
    (h : (functionCallsOf (model conv).output).isEmpty = false) :
    runAgentLoop model loads poolInit driver (fuel + 1) conv ex calls =
      match execTools poolInit driver loads (functionCallsOf (model conv).output)
          (conv ++ (model conv).output.filterMap turnOfItem) ex with
      | ToolsResult.failed e conv2 ex2 =>
          AgentOutcome.mk (some (LoopResult.uncaught e)) conv2 ex2 (calls + 1)
      | ToolsResult.ok conv2 ex2 =>
          runAgentLoop model loads poolInit driver fuel conv2 ex2 (calls + 1) := by
  rw [runAgentLoop]
  simp [h]

/-- A normally returned response happens only at an iteration whose model
response contains no function calls, and the conversation recorded in the
outcome is the one that final model call saw. -/
theorem runAgentLoop_ok_no_calls (model : List Turn → ModelResponse)
    (loads : String → Except String Json) (poolInit : Bool)
    (driver : Option Json → DriverOutcome) (fuel : Nat) (conv : List Turn)
    (ex : List ExecRecord) (calls : Nat)
    (h : isOkResult (runAgentLoop model loads poolInit driver fuel conv ex
      calls).result = true) :
    (functionCallsOf (model (runAgentLoop model loads poolInit driver fuel conv
      ex calls).conv).output).isEmpty = true := by
  induction fuel generalizing conv ex calls with
  | zero => simp [runAgentLoop, isOkResult] at h
  | succ fuel ih =>
    cases hfc : (functionCallsOf (model conv).output).isEmpty with
    | true =>
      rw [runAgentLoop_succ_noFc model loads poolInit driver fuel conv ex calls
        hfc]
      exact hfc
    | false =>
      rw [runAgentLoop_succ_fc model loads poolInit driver fuel conv ex calls
        hfc] at h ⊢
      cases hres : execTools poolInit driver loads
          (functionCallsOf (model conv).output)
          (conv ++ (model conv).output.filterMap turnOfItem) ex with
      | ok conv2 ex2 =>
        rw [hres] at h
        exact ih conv2 ex2 (calls + 1) h
      | failed e conv2 ex2 =>
        rw [hres] at h
        simp [isOkResult] at h

/-- A model that puts a function call with decodable arguments in every
response keeps the loop running: no fuel suffices to finish it. -/
theorem runAgentLoop_forever (model : List Turn → ModelResponse)
    (loads : String → Except String Json) (poolInit : Bool)
    (driver : Option Json → DriverOutcome)
    (H : ∀ c : List Turn, (functionCallsOf (model c).output).isEmpty = false ∧
      decodableCalls loads (functionCallsOf (model c).output) = true)
    (fuel : Nat) (conv : List Turn) (ex : List ExecRecord) (calls : Nat) :
    (runAgentLoop model loads poolInit driver fuel conv ex calls).result
      = none := by
  induction fuel generalizing conv ex calls with
  | zero => rfl
  | succ fuel ih =>
    rw [runAgentLoop]
    have h1 := (H conv).1
    simp only [h1, if_false, Bool.false_eq_true]
    obtain ⟨conv2, ex2, hok⟩ := execTools_ok poolInit driver loads
      (functionCallsOf (model conv).output)
      (conv ++ (model conv).output.filterMap turnOfItem) ex (H conv).2
    rw [hok]
    exact ih conv2 ex2 (calls + 1)

/-- Every reachable pool state keeps the configured bounds and never holds
more than 20 physical connections (idle plus checked out). -/
theorem pool_inv (p : PgPool) (h : PoolReachable p) :
    p.minconn = 1 ∧ p.maxconn = 20 ∧ p.idle + p.used ≤ 20 := by
  induction h with
  | init => exact ⟨rfl, rfl, by decide⟩
  | get p q hp hg ih =>
    obtain ⟨hm, hx, hs⟩ := ih
    unfold PgPool.getconn at hg
    by_cases h1 : 0 < p.idle
    · rw [if_pos h1] at hg
      injection hg with hq
      rw [← hq]
      exact ⟨hm, hx, by simp; omega⟩
    · rw [if_neg h1] at hg
      by_cases h2 : p.used = p.maxconn
      · rw [if_pos h2] at hg
        cases hg
      · rw [if_neg h2] at hg
        injection hg with hq
        rw [← hq]
        refine ⟨hm, hx, ?_⟩
        have hne : p.used ≠ 20 := by rw [← hx]; exact h2
        simp
        omega
  | put p hp hu ih =>
    obtain ⟨hm, hx, hs⟩ := ih
    unfold PgPool.putconn
    by_cases h1 : p.idle < p.minconn
    · rw [if_pos h1]
      exact ⟨hm, hx, by simp; omega⟩
    · rw [if_neg h1]
      exact ⟨hm, hx, by simp; omega⟩

/-- Successful chains of getconn calls stay within the reachable states. -/
theorem acquireN_reachable (n : Nat) (p q : PgPool) (hp : PoolReachable p)
    (h : acquireN n p = some q) : PoolReachable q := by
  induction n generalizing p with
  | zero =>
    unfold acquireN at h
    injection h with h
    exact h ▸ hp
  | succ n ih =>
    unfold acquireN at h
    cases hg : p.getconn with
    | conn r =>
      rw [hg] at h
      exact ih r (PoolReachable.get p r hp hg) h
    | poolExhausted =>
      rw [hg] at h
      cases h

/-- Function calls whose name is not run_database_query are skipped whole by
the tool loop. -/
theorem execTools_skip (poolInit : Bool) (driver : Option Json → DriverOutcome)
    (loads : String → Except String Json) (pre rest : List FunctionCall)
    (conv : List Turn) (ex : List ExecRecord)
    (h : pre.all (fun fc => !(fc.name == "run_database_query")) = true) :
    execTools poolInit driver loads (pre ++ rest) conv ex =
      execTools poolInit driver loads rest conv ex := by
  induction pre with
  | nil => rfl
  | cons call pre ih =>
    rw [List.all_cons] at h
    have h1 := (Bool.and_eq_true _ _).mp h
    have hname : ¬ (call.name = "run_database_query") := by
      simpa using h1.1
    rw [List.cons_append, execTools, if_neg hname]
    exact ih h1.2

-- ===== Section 6: the claims =====

/-- Concrete driver used by witnesses: raising with a PostgreSQL message. -/
def wDriverRaises : Option Json → DriverOutcome :=
  fun _ => DriverOutcome.raises "syntax error at or near \x22SELEC\x22"

/-- Concrete driver used by witnesses: statement with no result set. -/
def wDriverNoResult : Option Json → DriverOutcome :=
  fun _ => DriverOutcome.noResultSet

/-- Claim C1: for every SQL string, execute_sql_query_sync never raises to
its caller: on any exception during execution it returns the JSON
serialization of a status/error object carrying the non-empty message of
the exception, and whenever a connection was acquired it is released back
to the pool on every exit path, including the error path. In the
embedding the executor is a total function; when the driver raises with
message msg the output is json.dumps of the error object, the acquired
connection is released, and on every other path (arbitrary second driver
d2, query q2, both pool states) a connection is released exactly when one
was acquired. -/
theorem c1_executor_error_release (driver d2 : Option Json → DriverOutcome)
    (q q2 : Option Json) (msg : String)
    (hd : driver q = DriverOutcome.raises msg) (hm : msg ≠ "") :
    (execute_sql_query_sync true driver q).output =
      dumps (Json.obj [("status", Json.str "error"),
                       ("error", Json.str msg)]) ∧
    msg ≠ "" ∧
    (execute_sql_query_sync true driver q).acquired = true ∧
    (execute_sql_query_sync true driver q).released = true ∧
    (execute_sql_query_sync true d2 q2).released =
      (execute_sql_query_sync true d2 q2).acquired ∧
    (execute_sql_query_sync false d2 q2).released =
      (execute_sql_query_sync false d2 q2).acquired := by
  refine ⟨?_, hm, ?_, ?_, ?_, rfl⟩
  · simp [execute_sql_query_sync, hd]
  · simp [execute_sql_query_sync, hd]
  · simp [execute_sql_query_sync, hd]
  · cases hh : d2 q2 <;> simp [execute_sql_query_sync, hh]

/-- Witness for C1 at a concrete raising driver. -/
theorem c1_executor_error_release_witness :
    wDriverRaises (some (Json.str "SELEC 1")) =
      DriverOutcome.raises "syntax error at or near \x22SELEC\x22" ∧
    (execute_sql_query_sync true wDriverRaises (some (Json.str "SELEC 1"))).output =
      dumps (Json.obj [("status", Json.str "error"),
        ("error", Json.str "syntax error at or near \x22SELEC\x22")]) ∧
    (execute_sql_query_sync true wDriverRaises
      (some (Json.str "SELEC 1"))).released = true :=
  ⟨rfl,
   (c1_executor_error_release wDriverRaises wDriverRaises
     (some (Json.str "SELEC 1")) none _ rfl (by decide)).1,
   (c1_executor_error_release wDriverRaises wDriverRaises
     (some (Json.str "SELEC 1")) none _ rfl (by decide)).2.2.2.1⟩

/-- Claim C3: for every SQL statement that produces no result set
(cur.description is None), the output is exactly the JSON serialization of
the success object with message "Query executed successfully.". -/
theorem c3_no_result_set_success (driver : Option Json → DriverOutcome)
    (q : Option Json) (h : driver q = DriverOutcome.noResultSet) :
    (execute_sql_query_sync true driver q).output =
      dumps (Json.obj [("status", Json.str "success"),
                       ("message", Json.str "Query executed successfully.")]) := by
  simp [execute_sql_query_sync, h]

/-- Witness for C3 at a concrete no-result-set driver. -/
theorem c3_no_result_set_success_witness :
    wDriverNoResult (some (Json.str "INSERT INTO tasks VALUES (1)")) =
      DriverOutcome.noResultSet ∧
    (execute_sql_query_sync true wDriverNoResult
      (some (Json.str "INSERT INTO tasks VALUES (1)"))).output =
      dumps (Json.obj [("status", Json.str "success"),
                       ("message", Json.str "Query executed successfully.")]) :=
  ⟨rfl, c3_no_result_set_success wDriverNoResult
    (some (Json.str "INSERT INTO tasks VALUES (1)")) rfl⟩

/-- Claim C4: for every SQL statement that produces a result set, the
output is the JSON serialization of the ordered sequence of row mappings,
one per fetched row in database order, whose keys are exactly the selected
column names (pairwise distinct, each row carrying one value per column),
with non-JSON-native values replaced by their str() rendering
(json.dumps default=str). The second conjunct makes the key property
explicit: the key list of every row mapping is exactly the column list. -/
theorem c4_result_set_rows (driver : Option Json → DriverOutcome)
    (q : Option Json) (cols : List String) (rows : List (List SqlCell))
    (h : driver q = DriverOutcome.resultSet cols rows) (hnd : cols.Nodup)
    (hlen : ∀ r ∈ rows, r.length = cols.length) :
    (execute_sql_query_sync true driver q).output =
      dumps (Json.arr (rows.map
        (fun r => Json.obj (cols.zip (r.map cellJson))))) ∧
    rows.map (fun r => (cols.zip (r.map cellJson)).map Prod.fst) =
      rows.map (fun _ => cols) := by
  constructor
  · have hrows : rows.map (fun r => Json.obj (rowDict cols r)) =
        rows.map (fun r => Json.obj (cols.zip (r.map cellJson))) := by
      refine List.map_congr_left ?_
      intro r _
      rw [rowDict_eq_zip cols r hnd]
    simp only [execute_sql_query_sync, h, serializeRows, if_pos]
    rw [hrows]
  · refine List.map_congr_left ?_
    intro r hr
    refine List.map_fst_zip cols (r.map cellJson) ?_
    rw [List.length_map, hlen r hr]

/-- Witness for C4: two rows over columns id and due_date, with a date cell
stringified. -/
def wDriverRows : Option Json → DriverOutcome :=
  fun _ => DriverOutcome.resultSet ["id", "due_date"]
    [[SqlCell.native (Json.num 1), SqlCell.nonNative "2025-03-01"],
     [SqlCell.native (Json.num 2), SqlCell.native Json.null]]

/-- Witness for C4 at a concrete result set. -/
theorem c4_result_set_rows_witness :
    (execute_sql_query_sync true wDriverRows
      (some (Json.str "SELECT id, due_date FROM projects"))).output =
      dumps (Json.arr
        [Json.obj [("id", Json.num 1), ("due_date", Json.str "2025-03-01")],
         Json.obj [("id", Json.num 2), ("due_date", Json.null)]]) :=
  (c4_result_set_rows wDriverRows
    (some (Json.str "SELECT id, due_date FROM projects"))
    ["id", "due_date"]
    [[SqlCell.native (Json.num 1), SqlCell.nonNative "2025-03-01"],
     [SqlCell.native (Json.num 2), SqlCell.native Json.null]]
    rfl (by decide) (by decide)).1

/-- Claim C10: execute_sql_query_sync is total beyond driver errors. With
the pool uninitialized, get_conn raises, the except block still returns the
structured error JSON (message "Database pool not initialized"), and no
connection is acquired or released. When the decoded arguments have no
"query" key, args.get yields Python None, the driver raises on it (hd),
and the executor still returns the structured error JSON; on that path a
connection is released, and in both cases a connection is released exactly
when one was acquired. -/
theorem c10_executor_uninit_and_missing_query
    (driver : Option Json → DriverOutcome) (q : Option Json)
    (kvs : List (String × Json)) (m : String)
    (hd : driver none = DriverOutcome.raises m)
    (hk : pyGet kvs "query" = none) :
    (execute_sql_query_sync false driver q).output =
      dumps (Json.obj [("status", Json.str "error"),
                       ("error", Json.str "Database pool not initialized")]) ∧
    (execute_sql_query_sync false driver q).acquired = false ∧
    (execute_sql_query_sync false driver q).released = false ∧
    pyArgsQuery kvs = none ∧
    (execute_sql_query_sync true driver (pyArgsQuery kvs)).output =
      dumps (Json.obj [("status", Json.str "error"),
                       ("error", Json.str m)]) ∧
    (execute_sql_query_sync true driver (pyArgsQuery kvs)).released =
      (execute_sql_query_sync true driver (pyArgsQuery kvs)).acquired := by
  have hq : pyArgsQuery kvs = none := by
    unfold pyArgsQuery
    rw [hk]
  refine ⟨rfl, rfl, rfl, hq, ?_, ?_⟩
  · rw [hq]
    simp [execute_sql_query_sync, hd]
  · rw [hq]
    simp [execute_sql_query_sync, hd]

/-- Driver for the C10 witness: cur.execute(None) raises a TypeError. -/
def wDriverNoneRaises : Option Json → DriverOutcome :=
  fun o => match o with
    | none => DriverOutcome.raises "argument 1 must be a string"
    | some _ => DriverOutcome.noResultSet

/-- Witness for C10 at concrete inputs: uninitialized pool, and arguments
decoded to a dict with no query key. -/
theorem c10_executor_uninit_and_missing_query_witness :
    (execute_sql_query_sync false wDriverNoneRaises
      (some (Json.str "SELECT 1"))).output =
      dumps (Json.obj [("status", Json.str "error"),
                       ("error", Json.str "Database pool not initialized")]) ∧
    pyArgsQuery [("sql", Json.str "SELECT 1")] = none ∧
    (execute_sql_query_sync true wDriverNoneRaises
      (pyArgsQuery [("sql", Json.str "SELECT 1")])).output =
      dumps (Json.obj [("status", Json.str "error"),
                       ("error", Json.str "argument 1 must be a string")]) :=
  ⟨(c10_executor_uninit_and_missing_query wDriverNoneRaises
      (some (Json.str "SELECT 1")) [("sql", Json.str "SELECT 1")] _ rfl rfl).1,
   (c10_executor_uninit_and_missing_query wDriverNoneRaises
      (some (Json.str "SELECT 1")) [("sql", Json.str "SELECT 1")] _ rfl rfl).2.2.2.1,
   (c10_executor_uninit_and_missing_query wDriverNoneRaises
      (some (Json.str "SELECT 1")) [("sql", Json.str "SELECT 1")] _ rfl rfl).2.2.2.2.1⟩

/-- Model stub for witnesses: a plain-text answer with no tool invocation. -/
def wModelPlain4 : List Turn → ModelResponse :=
  fun _ => ModelResponse.mk [OutputItem.message "4"] "4"

/-- json.loads stub for witnesses that never parses. -/
def wLoads : String → Except String Json :=
  fun _ => Except.error "Expecting value: line 1 column 1 (char 0)"

/-- Claim C2: if the first model response contains no function_call items,
the loop returns after exactly one model call with the response dict
holding the output text; the outcome records one model call, an unchanged
one-turn conversation, and no executor invocation. -/
theorem c2_first_response_no_tools (model : List Turn → ModelResponse)
    (loads : String → Except String Json) (poolInit : Bool)
    (driver : Option Json → DriverOutcome) (q : String) (sid : Option String)
    (fuel : Nat)
    (h : (functionCallsOf (model [Turn.user q]).output).isEmpty = true) :
    run_agent (AgentRequest.mk q sid) model loads poolInit driver (fuel + 1) =
      AgentOutcome.mk
        (some (LoopResult.ok (Json.obj
          [("response", Json.str (model [Turn.user q]).output_text)])))
        [Turn.user q] [] 1 := by
  have hrw := runAgentLoop_succ_noFc model loads poolInit driver fuel
    [Turn.user q] [] 0 h
  simpa [run_agent] using hrw

/-- Witness for C2: the model stub answers the plain text 4 to the query
What is 2+2?, and the endpoint returns the response dict with text 4. -/
theorem c2_first_response_no_tools_witness :
    (functionCallsOf (wModelPlain4 [Turn.user "What is 2+2?"]).output).isEmpty
      = true ∧
    run_agent (AgentRequest.mk "What is 2+2?" none) wModelPlain4 wLoads true
      wDriverNoResult 1 =
      AgentOutcome.mk
        (some (LoopResult.ok (Json.obj [("response", Json.str "4")])))
        [Turn.user "What is 2+2?"] [] 1 :=
  ⟨rfl, c2_first_response_no_tools wModelPlain4 wLoads true wDriverNoResult
    "What is 2+2?" none 0 rfl⟩

/-- Claim C5: two requests that agree on query and differ only in
session_id (including its absence) produce identical outcomes under the
same model provider and database behavior: session_id influences nothing. -/
theorem c5_session_id_no_influence (r1 r2 : AgentRequest)
    (model : List Turn → ModelResponse) (loads : String → Except String Json)
    (poolInit : Bool) (driver : Option Json → DriverOutcome) (fuel : Nat)
    (h : r1.query = r2.query) :
    run_agent r1 model loads poolInit driver fuel =
      run_agent r2 model loads poolInit driver fuel := by
  unfold run_agent
  rw [h]

/-- Witness for C5: same query, session_id present versus absent. -/
theorem c5_session_id_no_influence_witness :
    (AgentRequest.mk "list tasks" (some "abc")).query =
      (AgentRequest.mk "list tasks" none).query ∧
    run_agent (AgentRequest.mk "list tasks" (some "abc")) wModelPlain4 wLoads
      true wDriverNoResult 3 =
    run_agent (AgentRequest.mk "list tasks" none) wModelPlain4 wLoads
      true wDriverNoResult 3 :=
  ⟨rfl, c5_session_id_no_influence (AgentRequest.mk "list tasks" (some "abc"))
    (AgentRequest.mk "list tasks" none) wModelPlain4 wLoads true
    wDriverNoResult 3 rfl⟩

/-- The tool loop aborts with the JSONDecodeError when it reaches a
run_database_query call whose arguments do not parse. -/
theorem execTools_rdq_decode_error (poolInit : Bool)
    (driver : Option Json → DriverOutcome)
    (loads : String → Except String Json) (cid args : String)
    (post : List FunctionCall) (conv : List Turn) (ex : List ExecRecord)
    (m : String) (hbad : loads args = Except.error m) :
    execTools poolInit driver loads
      (FunctionCall.mk cid "run_database_query" args :: post) conv ex =
      ToolsResult.failed (AgentFailure.jsonDecodeError m) conv ex := by
  simp [execTools, hbad]

/-- Claim C6: when a model response contains a run_database_query
invocation whose arguments string is not valid JSON (and it is the first
invocation of that name, any earlier ones bearing other names), the
json.loads failure is not caught: the iteration ends with the uncaught
decode error, no executor invocation is recorded, and the conversation
gains only the assistant turns of the response, never a
function_call_output turn for that invocation. -/
theorem c6_malformed_arguments_uncaught (model : List Turn → ModelResponse)
    (loads : String → Except String Json) (poolInit : Bool)
    (driver : Option Json → DriverOutcome) (fuel : Nat) (conv : List Turn)
    (ex : List ExecRecord) (calls : Nat) (pre post : List FunctionCall)
    (cid args m : String)
    (hsplit : functionCallsOf (model conv).output =
      pre ++ FunctionCall.mk cid "run_database_query" args :: post)
    (hpre : pre.all (fun fc => !(fc.name == "run_database_query")) = true)
    (hbad : loads args = Except.error m) :
    (runAgentLoop model loads poolInit driver (fuel + 1) conv ex calls).result
      = some (LoopResult.uncaught (AgentFailure.jsonDecodeError m)) ∧
    (runAgentLoop model loads poolInit driver (fuel + 1) conv ex calls).executed
      = ex ∧
    (runAgentLoop model loads poolInit driver (fuel + 1) conv ex calls).conv
      = conv ++ (model conv).output.filterMap turnOfItem := by
  have hne : (functionCallsOf (model conv).output).isEmpty = false := by
    rw [hsplit]
    cases pre <;> simp [List.isEmpty]
  rw [runAgentLoop_succ_fc model loads poolInit driver fuel conv ex calls hne]
  rw [hsplit]
  rw [execTools_skip poolInit driver loads pre _ _ ex hpre]
  rw [execTools_rdq_decode_error poolInit driver loads cid args post _ ex m hbad]
  exact ⟨rfl, rfl, rfl⟩

/-- Model stub whose every response asks for a run_database_query call with
arguments that are not valid JSON. -/
def wModelBadCall : List Turn → ModelResponse :=
  fun _ => ModelResponse.mk
    [OutputItem.functionCall "call_1" "run_database_query" "not json"] ""

/-- Witness for C6 at the concrete bad-arguments model stub. -/
theorem c6_malformed_arguments_uncaught_witness :
    functionCallsOf (wModelBadCall [Turn.user "q"]).output =
      [] ++ FunctionCall.mk "call_1" "run_database_query" "not json" :: [] ∧
    wLoads "not json" =
      Except.error "Expecting value: line 1 column 1 (char 0)" ∧
    (runAgentLoop wModelBadCall wLoads true wDriverNoResult 1
      [Turn.user "q"] [] 0).result =
      some (LoopResult.uncaught (AgentFailure.jsonDecodeError
        "Expecting value: line 1 column 1 (char 0)")) ∧
    (runAgentLoop wModelBadCall wLoads true wDriverNoResult 1
      [Turn.user "q"] [] 0).executed = [] :=
  ⟨rfl, rfl,
   (c6_malformed_arguments_uncaught wModelBadCall wLoads true wDriverNoResult
     0 [Turn.user "q"] [] 0 [] [] "call_1" "not json"
     "Expecting value: line 1 column 1 (char 0)" rfl rfl rfl).1,
   (c6_malformed_arguments_uncaught wModelBadCall wLoads true wDriverNoResult
     0 [Turn.user "q"] [] 0 [] [] "call_1" "not json"
     "Expecting value: line 1 column 1 (char 0)" rfl rfl rfl).2.1⟩

/-- Claim C8: over any whole run, only invocations named run_database_query
are executed locally (every executor record carries that name, so an
invocation with any other name, web search included, never reaches the
Query Executor), and the function_call_output turns appended to the
conversation correspond exactly, in order, to those executed invocations. -/
theorem c8_only_rdq_executed (model : List Turn → ModelResponse)
    (loads : String → Except String Json) (poolInit : Bool)
    (driver : Option Json → DriverOutcome) (request : AgentRequest)
    (fuel : Nat) :
    allRdq (run_agent request model loads poolInit driver fuel).executed
      = true ∧
    fcOutputIds (run_agent request model loads poolInit driver fuel).conv =
      (run_agent request model loads poolInit driver fuel).executed.map
        ExecRecord.call_id := by
  have h := runAgentLoop_inv model loads poolInit driver fuel
    [Turn.user request.query] [] 0 rfl rfl
  exact ⟨h.2, h.1⟩

/-- Counterexample for C7. The claim states that a 21st concurrent acquire
blocks until one of the 20 connections is released. The pool the code
instantiates, psycopg2.pool.ThreadedConnectionPool, never blocks: after 20
successful getconn calls from the freshly initialized pool (reaching the
state with 0 idle and 20 used connections), the next getconn raises
PoolError (connection pool exhausted) instead of waiting. -/
theorem c7_pool_blocks_counterexample :
    acquireN 20 databasePoolInit = some (PgPool.mk 1 20 0 20) ∧
    (PgPool.mk 1 20 0 20).getconn = GetConnResult.poolExhausted := by
  decide

/-- Claim C7 as amended: the pool is created with minimum 1 and maximum 20
connections; in every reachable state at most 20 connections are
simultaneously checked out and the number of open connections (idle plus
checked out) never exceeds 20; and a 21st concurrent acquire, issued while
20 are checked out, fails immediately with PoolError (connection pool
exhausted) rather than blocking until a release. -/
theorem c7_pool_bounds_amended (p : PgPool) (h : PoolReachable p) :
    databasePoolInit.minconn = 1 ∧ databasePoolInit.maxconn = 20 ∧
    p.used ≤ 20 ∧ p.idle + p.used ≤ 20 ∧
    (p.used = 20 → p.getconn = GetConnResult.poolExhausted) := by
  obtain ⟨hm, hx, hs⟩ := pool_inv p h
  refine ⟨rfl, rfl, by omega, hs, ?_⟩
  intro h20
  unfold PgPool.getconn
  rw [if_neg (by omega), if_pos (by rw [h20, hx])]

/-- Witness for C7 (amended) at the reachable fully-checked-out state. -/
theorem c7_pool_bounds_amended_witness :
    (PgPool.mk 1 20 0 20).getconn = GetConnResult.poolExhausted := by
  have hr : PoolReachable (PgPool.mk 1 20 0 20) :=
    acquireN_reachable 20 databasePoolInit (PgPool.mk 1 20 0 20)
      PoolReachable.init (by decide)
  exact (c7_pool_bounds_amended (PgPool.mk 1 20 0 20) hr).2.2.2.2 rfl

/-- Counterexample for C9. The claim states the loop terminates if and only
if some model response contains no tool-invocation entries, and that a
model requesting a tool invocation on every response makes it run forever.
wModelBadCall requests a run_database_query invocation in every response
(it is a constant function, and its one response contains exactly one
function_call item), yet the loop terminates on the first iteration: the
invocation arguments fail json.loads and the decode error aborts the
request. -/
theorem c9_always_tools_terminates_counterexample :
    (functionCallsOf (wModelBadCall []).output).isEmpty = false ∧
    (run_agent (AgentRequest.mk "q" none) wModelBadCall wLoads true
      wDriverNoResult 5).result =
      some (LoopResult.uncaught (AgentFailure.jsonDecodeError
        "Expecting value: line 1 column 1 (char 0)")) :=
  ⟨rfl, rfl⟩

/-- Claim C9 as amended: the loop enforces no maximum iteration count; it
returns a final response only at a model response with no tool-invocation
entries (first conjunct: a normally returned outcome means the final model
response had no function calls); and for a model that requests a tool
invocation on every response, the loop runs forever provided the
run_database_query arguments always decode to JSON objects — with no fuel
does it produce a result (second conjunct, for arbitrary fuel); a
malformed-arguments response instead aborts the request with the uncaught
decode error. -/
theorem c9_no_iteration_cap_amended (model : List Turn → ModelResponse)
    (loads : String → Except String Json) (poolInit : Bool)
    (driver : Option Json → DriverOutcome) (request : AgentRequest)
    (fuel : Nat) :
    (isOkResult (run_agent request model loads poolInit driver fuel).result
        = true →
      (functionCallsOf
        ((model (run_agent request model loads poolInit driver fuel).conv).output)).isEmpty
        = true) ∧
    ((∀ c : List Turn, (functionCallsOf (model c).output).isEmpty = false ∧
        decodableCalls loads (functionCallsOf (model c).output) = true) →
      (run_agent request model loads poolInit driver fuel).result = none) := by
  constructor
  · intro h
    exact runAgentLoop_ok_no_calls model loads poolInit driver fuel
      [Turn.user request.query] [] 0 h
  · intro H
    exact runAgentLoop_forever model loads poolInit driver H fuel
      [Turn.user request.query] [] 0

/-- Model stub whose every response asks for a run_database_query call with
well-formed JSON-object arguments. -/
def wModelGoodCall : List Turn → ModelResponse :=
  fun _ => ModelResponse.mk
    [OutputItem.functionCall "call_1" "run_database_query"
      "\x7b\"query\": \"SELECT 1\"\x7d"] ""

/-- json.loads stub parsing exactly the arguments wModelGoodCall emits. -/
def wLoadsGood : String → Except String Json :=
  fun s =>
    if s = "\x7b\"query\": \"SELECT 1\"\x7d" then
      Except.ok (Json.obj [("query", Json.str "SELECT 1")])
    else Except.error "Expecting value: line 1 column 1 (char 0)"

/-- Witness for C9 (amended): with well-formed tool arguments on every
response, no amount of fuel lets the loop finish. -/
theorem c9_no_iteration_cap_amended_witness :
    (run_agent (AgentRequest.mk "q" none) wModelGoodCall wLoadsGood true
      wDriverNoResult 7).result = none := by
  refine (c9_no_iteration_cap_amended wModelGoodCall wLoadsGood true
    wDriverNoResult (AgentRequest.mk "q" none) 7).2 ?_
  intro c
  exact ⟨rfl, rfl⟩
